import Mathlib

/-!
Shallow embedding of the vaccination record-keeping client:
the immunization workflow orchestrator (`src/services/immunizationWorkflow.ts`),
the sync conflict resolver (`src/services/syncManager.ts`), and the legacy
localStorage migration (`src/db/simple-migration.ts`).

Conventions of the embedding:
- Optional TS fields become `Option`; `undefined` is `none`.
- JS string truthiness (`x ? a : b` on an optional string) is modelled
  explicitly: `none` and `some ""` are falsy.
- The non-deterministic effects of the workflow (`Date.now()`/`Math.random()`
  id tags, `new Date().toISOString()` timestamps, and whether each awaited
  store insert resolves or rejects) are supplied by a `WorkflowEnv` record.
- The document store reached through `getDatabase()` is a record of lists,
  one per collection; `insert` appends, `find().exec()` returns the list.
- ISO timestamps compared through `new Date(...)` in the conflict resolver
  are modelled as abstract instants (`Nat`) with the same ordering.
-/

namespace VaxCare

/-- A `{system, code, display}` coding triple, as used throughout the FHIR
resource interfaces of `immunizationWorkflow.ts`. -/
structure Coding where
  system : String
  code : String
  display : String
deriving DecidableEq, Repr

/-- A `{coding: [...]}` codeable concept. -/
structure CodeableConcept where
  coding : List Coding
deriving DecidableEq, Repr

/-- A `{reference, display}` resource reference. -/
structure Reference where
  reference : String
  display : String
deriving DecidableEq, Repr

/-- A `{display}` wrapper (used for `manufacturer`). -/
structure DisplayRef where
  display : String
deriving DecidableEq, Repr

/-- A `{value, unit}` quantity; JS numbers carried opaquely, modelled as `Int`. -/
structure Quantity where
  value : Int
  unit : String
deriving DecidableEq, Repr

/-- An encounter `participant` entry. -/
structure EncounterParticipant where
  type : Option (List CodeableConcept)
  individual : Reference
deriving DecidableEq, Repr

/-- An encounter `location` entry. -/
structure EncounterLocation where
  location : Reference
deriving DecidableEq, Repr

/-- An encounter `period`; the TS field `end` is `endTime` here (`end` is a
Lean keyword). -/
structure Period where
  start : String
  endTime : Option String
deriving DecidableEq, Repr

/-- The `Encounter` interface of `immunizationWorkflow.ts`; the TS field
`class` is `cls` here (`class` is a Lean keyword); `status` and the other TS
string-literal unions are plain strings, as at the JS runtime. -/
structure Encounter where
  resourceType : String
  id : String
  status : String
  cls : Coding
  type : Option (List CodeableConcept)
  subject : Reference
  participant : Option (List EncounterParticipant)
  location : Option (List EncounterLocation)
  period : Option Period
  createdAt : String
  updatedAt : String
deriving DecidableEq, Repr

/-- A medication `ingredient.strength` entry. -/
structure IngredientStrength where
  numerator : Option Quantity
  denominator : Option Quantity
deriving DecidableEq, Repr

/-- A medication `ingredient` entry. -/
structure Ingredient where
  itemCodeableConcept : CodeableConcept
  strength : Option IngredientStrength
deriving DecidableEq, Repr

/-- The `Medication` interface of `immunizationWorkflow.ts`. -/
structure Medication where
  resourceType : String
  id : String
  code : CodeableConcept
  manufacturer : Option DisplayRef
  form : Option CodeableConcept
  ingredient : Option (List Ingredient)
  createdAt : String
  updatedAt : String
deriving DecidableEq, Repr

/-- A `performer` entry (`{actor: {reference, display}}`). -/
structure Performer where
  actor : Reference
deriving DecidableEq, Repr

/-- The `dosage` of a MedicationAdministration. -/
structure Dosage where
  route : Option CodeableConcept
  dose : Option Quantity
  site : Option CodeableConcept
deriving DecidableEq, Repr

/-- The `MedicationAdministration` interface of `immunizationWorkflow.ts`. -/
structure MedicationAdministration where
  resourceType : String
  id : String
  status : String
  medicationCodeableConcept : CodeableConcept
  subject : Reference
  encounter : Option Reference
  performer : Option (List Performer)
  effectiveDateTime : String
  dosage : Option Dosage
  createdAt : String
  updatedAt : String
deriving DecidableEq, Repr

/-- The `Immunization` interface of `immunizationWorkflow.ts`. -/
structure Immunization where
  resourceType : String
  id : String
  status : String
  vaccineCode : CodeableConcept
  patient : Reference
  encounter : Option Reference
  occurrenceDateTime : String
  performer : Option (List Performer)
  location : Option Reference
  lotNumber : Option String
  expirationDate : Option String
  manufacturer : Option DisplayRef
  site : Option CodeableConcept
  route : Option CodeableConcept
  doseQuantity : Quantity
  createdAt : String
  updatedAt : String
deriving DecidableEq, Repr

/-- The `ImmunizationWorkflowData` input interface. -/
structure ImmunizationWorkflowData where
  patientId : String
  patientName : String
  vaccineCode : String
  vaccineDisplay : String
  lotNumber : Option String
  manufacturer : Option String
  doseQuantity : Quantity
  site : Option String
  route : Option String
  occurrenceDateTime : String
  performer : Option String
  location : Option String
deriving DecidableEq, Repr

/-- The `ImmunizationWorkflowResult` returned by `executeWorkflow`. -/
structure ImmunizationWorkflowResult where
  encounter : Encounter
  immunization : Immunization
  medication : Option Medication
  medicationAdministration : Option MedicationAdministration
deriving DecidableEq, Repr

/-- The `User` interface of the auth store (`src/store/auth.ts`). -/
structure User where
  id : String
  username : String
  role : String
  name : String
  email : Option String
deriving DecidableEq, Repr

/-- The four collections of the document store that the workflow writes to;
`insert` appends to the corresponding list. -/
structure WorkflowDB where
  encounters : List Encounter
  medications : List Medication
  immunizations : List Immunization
  medicationAdministrations : List MedicationAdministration
deriving DecidableEq, Repr

/-- The effects consumed by one `executeWorkflow` call: per-step
`Date.now()+Math.random()` id tags, per-step `toISOString()` timestamps, and
whether each awaited store insert resolves (`true`) or rejects (`false`). -/
structure WorkflowEnv where
  encounterIdTag : String
  encounterNow : String
  medicationIdTag : String
  medicationNow : String
  immunizationIdTag : String
  immunizationNow : String
  medAdminIdTag : String
  medAdminNow : String
  encounterInsertOk : Bool
  medicationInsertOk : Bool
  immunizationInsertOk : Bool
  medAdminInsertOk : Bool
deriving DecidableEq, Repr

/-- JS truthiness of an optional string: `undefined` and `""` are falsy. -/
def strTruthy : Option String → Bool
  | none => false
  | some s => s != ""

/-- The `siteMap` of `getSiteCode`. -/
def siteCodeMap : List (String × String) :=
  [("LA", "368208006"), ("RA", "368209003"), ("LL", "368210008"),
   ("RL", "368211007"), ("GL", "368212000")]

/-- The `siteMap` of `getSiteDisplay`. -/
def siteDisplayMap : List (String × String) :=
  [("LA", "Left arm"), ("RA", "Right arm"), ("LL", "Left leg"),
   ("RL", "Right leg"), ("GL", "Gluteal")]

/-- The `routeMap` of `getRouteCode`. -/
def routeCodeMap : List (String × String) :=
  [("IM", "78421000"), ("SC", "34206000"), ("ID", "78430000"),
   ("PO", "26643006"), ("IN", "16857009")]

/-- The `routeMap` of `getRouteDisplay`. -/
def routeDisplayMap : List (String × String) :=
  [("IM", "Intramuscular"), ("SC", "Subcutaneous"), ("ID", "Intradermal"),
   ("PO", "Oral"), ("IN", "Intranasal")]

/-- Source `getSiteCode`: `siteMap[site] || '368208006'` (every map value is a
non-empty string, so `||` is merely the absent-key fallback). -/
def getSiteCode (site : String) : String :=
  (siteCodeMap.lookup site).getD "368208006"

/-- Source `getSiteDisplay`: `siteMap[site] || 'Left arm'`. -/
def getSiteDisplay (site : String) : String :=
  (siteDisplayMap.lookup site).getD "Left arm"

/-- Source `getRouteCode`: `routeMap[route] || '78421000'`. -/
def getRouteCode (route : String) : String :=
  (routeCodeMap.lookup route).getD "78421000"

/-- Source `getRouteDisplay`: `routeMap[route] || 'Intramuscular'`. -/
def getRouteDisplay (route : String) : String :=
  (routeDisplayMap.lookup route).getD "Intramuscular"

/-- The predicate of `createOrFindMedication`'s lookup:
`medicationData.code?.coding?.some(coding => coding.code === data.vaccineCode)`. -/
def medMatch (vaccineCode : String) (m : Medication) : Bool :=
  m.code.coding.any (fun c => c.code == vaccineCode)

/-- The Encounter record built by `createEncounter` (its `newEncounter`). -/
def builtEncounter (user : User) (data : ImmunizationWorkflowData)
    (env : WorkflowEnv) : Encounter :=
  { resourceType := "Encounter"
    id := "encounter_" ++ env.encounterIdTag
    status := "finished"
    cls := ⟨"http://terminology.hl7.org/CodeSystem/v3-ActCode", "AMB", "Ambulatory"⟩
    type := some [⟨[⟨"http://snomed.info/sct", "185349003", "Immunization visit"⟩]⟩]
    subject := ⟨"Patient/" ++ data.patientId, data.patientName⟩
    participant := some
      [⟨some [⟨[⟨"http://terminology.hl7.org/CodeSystem/v3-ParticipationType",
                 "ATND", "Attending"⟩]⟩],
        ⟨"Practitioner/" ++ user.id, user.name⟩⟩]
    -- `data.location ? [...] : undefined` (JS truthiness)
    location := match data.location with
      | some loc => if loc != "" then some [⟨⟨"Location/" ++ loc, loc⟩⟩] else none
      | none => none
    period := some ⟨data.occurrenceDateTime, some data.occurrenceDateTime⟩
    createdAt := env.encounterNow
    updatedAt := env.encounterNow }

/-- Source `ImmunizationWorkflowService.createEncounter`: builds the Encounter
record and awaits `db.encounters.insert`. -/
def createEncounter (user : User) (data : ImmunizationWorkflowData)
    (env : WorkflowEnv) (db : WorkflowDB) :
    Except (String × WorkflowDB) (Encounter × WorkflowDB) :=
  let newEncounter : Encounter := builtEncounter user data env
  if env.encounterInsertOk then
    .ok (newEncounter, { db with encounters := db.encounters ++ [newEncounter] })
  else
    .error ("insert failed", db)

/-- The Medication record built by `createOrFindMedication` when no stored
Medication matches the vaccine code (its `newMedication`). -/
def builtMedication (data : ImmunizationWorkflowData) (env : WorkflowEnv) : Medication :=
  { resourceType := "Medication"
    id := "medication_" ++ env.medicationIdTag
    code := ⟨[⟨"http://hl7.org/fhir/sid/cvx", data.vaccineCode, data.vaccineDisplay⟩]⟩
    -- `data.manufacturer ? {...} : undefined`
    manufacturer := match data.manufacturer with
      | some m => if m != "" then some ⟨m⟩ else none
      | none => none
    form := some ⟨[⟨"http://snomed.info/sct", "385219001", "Injection solution"⟩]⟩
    ingredient := none
    createdAt := env.medicationNow
    updatedAt := env.medicationNow }

/-- Source `ImmunizationWorkflowService.createOrFindMedication`: scans the stored
Medication documents for one whose coding carries the vaccine code and
returns it; otherwise builds a new Medication and awaits
`db.medications.insert`.  The TS return type is `Medication | undefined`,
hence the `Option` in the result. -/
def createOrFindMedication (data : ImmunizationWorkflowData)
    (env : WorkflowEnv) (db : WorkflowDB) :
    Except (String × WorkflowDB) (Option Medication × WorkflowDB) :=
  match db.medications.find? (medMatch data.vaccineCode) with
  | some existingMedication => .ok (some existingMedication, db)
  | none =>
    let newMedication : Medication := builtMedication data env
    if env.medicationInsertOk then
      .ok (some newMedication, { db with medications := db.medications ++ [newMedication] })
    else
      .error ("insert failed", db)

/-- The Immunization record built by `createImmunization` (its
`newImmunization`). -/
def builtImmunization (user : User) (data : ImmunizationWorkflowData)
    (env : WorkflowEnv) (encounter : Encounter) : Immunization :=
  { resourceType := "Immunization"
    id := "immunization_" ++ env.immunizationIdTag
    status := "completed"
    vaccineCode := ⟨[⟨"http://hl7.org/fhir/sid/cvx", data.vaccineCode, data.vaccineDisplay⟩]⟩
    patient := ⟨"Patient/" ++ data.patientId, data.patientName⟩
    encounter := some ⟨"Encounter/" ++ encounter.id,
                       "Immunization visit for " ++ data.patientName⟩
    occurrenceDateTime := data.occurrenceDateTime
    performer := some [⟨⟨"Practitioner/" ++ user.id, user.name⟩⟩]
    location := match data.location with
      | some loc => if loc != "" then some ⟨"Location/" ++ loc, loc⟩ else none
      | none => none
    lotNumber := data.lotNumber
    expirationDate := none
    manufacturer := match data.manufacturer with
      | some m => if m != "" then some ⟨m⟩ else none
      | none => none
    site := match data.site with
      | some s => if s != "" then
          some ⟨[⟨"http://snomed.info/sct", getSiteCode s, getSiteDisplay s⟩]⟩
        else none
      | none => none
    route := match data.route with
      | some r => if r != "" then
          some ⟨[⟨"http://snomed.info/sct", getRouteCode r, getRouteDisplay r⟩]⟩
        else none
      | none => none
    doseQuantity := data.doseQuantity
    createdAt := env.immunizationNow
    updatedAt := env.immunizationNow }

/-- Source `ImmunizationWorkflowService.createImmunization`: builds the Immunization
record (the `medication` argument is accepted but unused, as in the source)
and awaits `db.immunizations.insert`. -/
def createImmunization (user : User) (data : ImmunizationWorkflowData)
    (env : WorkflowEnv) (encounter : Encounter) (_medication : Option Medication)
    (db : WorkflowDB) :
    Except (String × WorkflowDB) (Immunization × WorkflowDB) :=
  let newImmunization : Immunization := builtImmunization user data env encounter
  if env.immunizationInsertOk then
    .ok (newImmunization, { db with immunizations := db.immunizations ++ [newImmunization] })
  else
    .error ("insert failed", db)

/-- The MedicationAdministration record built by
`createMedicationAdministration` (its `newMedicationAdministration`), copying
`medication.code` into `medicationCodeableConcept`. -/
def builtMedicationAdministration (user : User) (data : ImmunizationWorkflowData)
    (env : WorkflowEnv) (encounter : Encounter) (medication : Medication) :
    MedicationAdministration :=
  { resourceType := "MedicationAdministration"
    id := "medicationAdministration_" ++ env.medAdminIdTag
    status := "completed"
    medicationCodeableConcept := medication.code
    subject := ⟨"Patient/" ++ data.patientId, data.patientName⟩
    encounter := some ⟨"Encounter/" ++ encounter.id,
                       "Immunization visit for " ++ data.patientName⟩
    performer := some [⟨⟨"Practitioner/" ++ user.id, user.name⟩⟩]
    effectiveDateTime := data.occurrenceDateTime
    dosage := some
      { route := match data.route with
          | some r => if r != "" then
              some ⟨[⟨"http://snomed.info/sct", getRouteCode r, getRouteDisplay r⟩]⟩
            else none
          | none => none
        dose := some data.doseQuantity
        site := match data.site with
          | some s => if s != "" then
              some ⟨[⟨"http://snomed.info/sct", getSiteCode s, getSiteDisplay s⟩]⟩
            else none
          | none => none }
    createdAt := env.medAdminNow
    updatedAt := env.medAdminNow }

/-- Source `ImmunizationWorkflowService.createMedicationAdministration`: builds the
MedicationAdministration record and awaits
`db.medicationAdministrations.insert`. -/
def createMedicationAdministration (user : User) (data : ImmunizationWorkflowData)
    (env : WorkflowEnv) (encounter : Encounter) (medication : Medication)
    (db : WorkflowDB) :
    Except (String × WorkflowDB) (MedicationAdministration × WorkflowDB) :=
  let newMedicationAdministration : MedicationAdministration :=
    builtMedicationAdministration user data env encounter medication
  if env.medAdminInsertOk then
    .ok (newMedicationAdministration,
         { db with medicationAdministrations :=
             db.medicationAdministrations ++ [newMedicationAdministration] })
  else
    .error ("insert failed", db)

/-- Source `ImmunizationWorkflowService.executeWorkflow`: fails with
`No authenticated user found` when no current user is present, then runs the
four steps in order; a rejected insert propagates immediately (the carried
`WorkflowDB` is the state at the moment of failure — no rollback). -/
def executeWorkflow (currentUser : Option User) (data : ImmunizationWorkflowData)
    (env : WorkflowEnv) (db : WorkflowDB) :
    Except (String × WorkflowDB) (ImmunizationWorkflowResult × WorkflowDB) :=
  match currentUser with
  | none => .error ("No authenticated user found", db)
  | some user =>
    match createEncounter user data env db with
    | .error e => .error e
    | .ok (encounter, db1) =>
      match createOrFindMedication data env db1 with
      | .error e => .error e
      | .ok (medication, db2) =>
        match createImmunization user data env encounter medication db2 with
        | .error e => .error e
        | .ok (immunization, db3) =>
          -- Step 4 runs only `if medication exists`
          match medication with
          | some med =>
            match createMedicationAdministration user data env encounter med db3 with
            | .error e => .error e
            | .ok (medicationAdministration, db4) =>
              .ok (⟨encounter, immunization, some med, some medicationAdministration⟩, db4)
          | none => .ok (⟨encounter, immunization, none, none⟩, db3)

/-- A replicated document as seen by `SyncManager.handleSyncConflict`:
`updatedAt`/`createdAt` are the instants denoted by the ISO timestamps
(`new Date(...)` values modelled as `Nat` with the same ordering); a missing
`updatedAt` is `none`.  `body` stands for the rest of the document. -/
structure SyncResource where
  id : String
  updatedAt : Option Nat
  createdAt : Nat
  body : String
deriving DecidableEq, Repr

/-- Models `new Date(resource.updatedAt || resource.createdAt)`. -/
def resolveTime (r : SyncResource) : Nat :=
  match r.updatedAt with
  | some t => t
  | none => r.createdAt

/-- Source `SyncManager.handleSyncConflict`: last-write-wins —
`localTime > serverTime ? localResource : serverResource`. -/
def handleSyncConflict (localResource serverResource : SyncResource) : SyncResource :=
  if resolveTime localResource > resolveTime serverResource then localResource
  else serverResource

/-! ## Legacy localStorage migration (`src/db/simple-migration.ts`)

`localStorage` is a finite association of string keys to string values;
`lsGet` is `getItem`, `removeItem` filters the key out, `setItem` replaces
any binding of the key.  `JSON.parse` is external to the repository, so the
migration is parameterised by a total `parse` function whose outcome is
either a throw (`fail`), a non-array JS value (`nonArray`), or an array of
legacy records (`array`). -/

/-- The legacy flat store: an association list of key/value strings. -/
abbrev LocalStore := List (String × String)

/-- Models `localStorage.getItem`. -/
def lsGet : LocalStore → String → Option String
  | [], _ => none
  | (k, v) :: rest, j => if k = j then some v else lsGet rest j

/-- Models `localStorage.removeItem`. -/
def removeItem (k : String) (ls : LocalStore) : LocalStore :=
  ls.filter (fun p => p.1 != k)

/-- Models `localStorage.setItem`. -/
def setItem (k v : String) (ls : LocalStore) : LocalStore :=
  removeItem k ls ++ [(k, v)]

/-- One record of a parsed legacy JSON array: its `id` field plus the rest
of the flat record. -/
structure LegacyItem where
  id : String
  body : String
deriving DecidableEq, Repr

/-- A document written by `bulkDocs`: `{_id: item.id, ...item}`. -/
structure MigDoc where
  docId : String
  item : LegacyItem
deriving DecidableEq, Repr

/-- Outcome of `JSON.parse` on one stored value. -/
inductive ParseOutcome where
  | fail
  | nonArray
  | array (items : List LegacyItem)
deriving DecidableEq, Repr

/-- Joint state of the legacy flat store and the document store; collections
of the document store are keyed by their legacy storage key. -/
structure MigState where
  ls : LocalStore
  store : String → List MigDoc

/-- The inner `migrateData` helper of `migrateFromLocalStorage`: read the
key (skipped when absent or empty — `if (data)` is a JS truthiness test);
on parse throw, delete the corrupted key; on a non-empty parsed array, bulk
insert the records (`{_id: item.id, ...item}`) and delete the key; a
non-array or empty-array payload is left untouched. -/
def migrateData (parse : String → ParseOutcome) (key : String) (s : MigState) : MigState :=
  match lsGet s.ls key with
  | none => s
  | some data =>
    if data = "" then s
    else
      match parse data with
      | .fail => { s with ls := removeItem key s.ls }
      | .nonArray => s
      | .array items =>
        if items.length > 0 then
          { ls := removeItem key s.ls,
            store := fun j => if j = key then s.store key ++ items.map (fun it => ⟨it.id, it⟩)
                              else s.store j }
        else s

/-- The seven legacy collection keys, in the order the source migrates them. -/
def migKeys : List String :=
  ["vaxcare_patients", "vaxcare_immunizations", "vaxcare_practitioners",
   "vaxcare_organizations", "vaxcare_encounters", "vaxcare_medications",
   "vaxcare_medicationAdministrations"]

/-- Source `MIGRATION_FLAG_KEY`. -/
def markerKey : String := "vaxcare_pouchdb_migration_done"

/-- Sequencing of `migrateData` calls over a list of keys. -/
def migrateSeq (parse : String → ParseOutcome) (l : List String) (s : MigState) : MigState :=
  l.foldl (fun st k => migrateData parse k st) s

/-- The seven `migrateData` calls of `migrateFromLocalStorage`, in order. -/
def migrateCollections (parse : String → ParseOutcome) (s : MigState) : MigState :=
  migrateSeq parse migKeys s

/-- A key is `benign` when re-running `migrateData` on it is a no-op: the
key is absent, or holds the empty string, or holds a value that parses to a
non-array or to an empty array.  (A value that fails to parse, or a
non-empty array, triggers work.) -/
def benign (parse : String → ParseOutcome) (ls : LocalStore) (k : String) : Prop :=
  match lsGet ls k with
  | none => True
  | some v =>
    if v = "" then True
    else
      match parse v with
      | .fail => False
      | .nonArray => True
      | .array items => items = []

/-- Source `migrateFromLocalStorage`: migrate all collections, then
`localStorage.setItem(MIGRATION_FLAG_KEY, 'true')`. -/
def migrateFromLocalStorage (parse : String → ParseOutcome) (s : MigState) : MigState :=
  let s' := migrateCollections parse s
  { s' with ls := setItem markerKey "true" s'.ls }

/-- Models `String.prototype.startsWith`, expressed on character lists so that it
evaluates inside the kernel. -/
def jsStartsWith (s pre : String) : Bool :=
  pre.data.isPrefixOf s.data

/-- Source `isMigrationNeeded`: some stored key starts with `vaxcare_` and the
migration marker value is not truthy (`!migrationDone`). -/
def isMigrationNeeded (ls : LocalStore) : Bool :=
  let migrationDone := lsGet ls markerKey
  let oldDataExists := (ls.map Prod.fst).any (fun key => jsStartsWith key "vaxcare_")
  oldDataExists && !(strTruthy migrationDone)

/-! ## Concrete instances used to evaluate the definitions -/

/-- A current user (the mock admin of the auth store). -/
def user0 : User := ⟨"1", "admin", "admin", "Admin User", some "admin@vaxcare.africa"⟩

/-- The end-to-end scenario input of the spec. -/
def c1Data : ImmunizationWorkflowData :=
  ⟨"p1", "Jane Doe", "BCG", "BCG", none, none, ⟨1, "ml"⟩, none, none,
   "2024-01-01T10:00:00Z", none, none⟩

/-- An effect environment in which every insert resolves. -/
def env0 : WorkflowEnv :=
  ⟨"1704103200000_e0e0e0e0e", "2024-01-01T10:00:01.000Z",
   "1704103200001_m0m0m0m0m", "2024-01-01T10:00:01.100Z",
   "1704103200002_i0i0i0i0i", "2024-01-01T10:00:01.200Z",
   "1704103200003_a0a0a0a0a", "2024-01-01T10:00:01.300Z",
   true, true, true, true⟩

/-- An empty document store. -/
def db0 : WorkflowDB := ⟨[], [], [], []⟩

/-- The scenario input with explicitly supplied empty `site` and `route`
strings (both fall outside the five-entry coding maps). -/
def c10Data : ImmunizationWorkflowData := { c1Data with site := some "", route := some "" }

/-- The scenario input with unmapped non-empty `site` and `route` strings. -/
def c10Data2 : ImmunizationWorkflowData := { c1Data with site := some "XX", route := some "YY" }

/-- An encounter to hang step-3/step-4 evaluations on. -/
def enc0 : Encounter := builtEncounter user0 c1Data env0

/-- A medication as created by the first scenario run. -/
def med0 : Medication := builtMedication c1Data env0

/-- A store already holding `med0` (the state after a first "BCG" run, as
far as the Medication collection is concerned). -/
def db1 : WorkflowDB := ⟨[], [med0], [], []⟩

/-- Projects the Immunization `site` out of a step-3 outcome. -/
def immSiteOf : Except (String × WorkflowDB) (Immunization × WorkflowDB) →
    Option (Option CodeableConcept)
  | .ok (imm, _) => some imm.site
  | .error _ => none

/-- Projects the Immunization `route` out of a step-3 outcome. -/
def immRouteOf : Except (String × WorkflowDB) (Immunization × WorkflowDB) →
    Option (Option CodeableConcept)
  | .ok (imm, _) => some imm.route
  | .error _ => none

/-- Local and server copies of one document, diverging: both carry
`updatedAt`, the local one later. -/
def localLater : SyncResource := ⟨"doc1", some 7, 1, "local edit"⟩

/-- Server copy, earlier `updatedAt`. -/
def serverEarlier : SyncResource := ⟨"doc1", some 3, 1, "server edit"⟩

/-- Local copy whose `updatedAt` ties with `serverTied`. -/
def localTied : SyncResource := ⟨"doc2", some 5, 1, "local edit"⟩

/-- Server copy whose `updatedAt` ties with `localTied`. -/
def serverTied : SyncResource := ⟨"doc2", some 5, 2, "server edit"⟩

/-- A JSON parse oracle: `"BAD"` throws, `"ARR"` is a one-record array,
anything else is a non-array value. -/
def parse0 : String → ParseOutcome := fun s =>
  if s = "BAD" then .fail
  else if s = "ARR" then .array [⟨"rec1", "flat record"⟩]
  else .nonArray

/-- Legacy storage holding one corrupt collection and one healthy one. -/
def mig0 : MigState :=
  ⟨[("vaxcare_practitioners", "BAD"), ("vaxcare_patients", "ARR")], fun _ => []⟩

/-- A JSON parse oracle under which the empty string throws (as
`JSON.parse("")` does). -/
def parseEmpty : String → ParseOutcome := fun s =>
  if s = "" then .fail else .nonArray

/-- Legacy storage whose only collection key holds the empty string. -/
def migEmpty : MigState := ⟨[("vaxcare_patients", "")], fun _ => []⟩

/-- The immunization created by the scenario run. -/
def imm0 : Immunization := builtImmunization user0 c1Data env0 enc0

/-- The medication administration created by the scenario run. -/
def ma0 : MedicationAdministration :=
  builtMedicationAdministration user0 c1Data env0 enc0 med0

/-- The result returned by the scenario run. -/
def runRes0 : ImmunizationWorkflowResult := ⟨enc0, imm0, some med0, some ma0⟩

/-- The store after the scenario run on an empty store. -/
def runDb0 : WorkflowDB := ⟨[enc0], [med0], [imm0], [ma0]⟩

/-- The all-resolving environment with the step-3 (Immunization) insert
rejecting. -/
def envFailImm : WorkflowEnv := { env0 with immunizationInsertOk := false }

/-! ## Theorems -/

/-- C2: for two divergent copies of one document id that both carry an
`updatedAt`, `handleSyncConflict` selects the copy with the later
`updatedAt` as canonical, and on a tie it selects the remote (server)
copy. -/
theorem handleSyncConflict_last_write_wins
    (localResource serverResource : SyncResource) (tl ts : Nat)
    (_hid : localResource.id = serverResource.id)
    (hl : localResource.updatedAt = some tl)
    (hs : serverResource.updatedAt = some ts) :
    (ts < tl → handleSyncConflict localResource serverResource = localResource) ∧
    (tl < ts → handleSyncConflict localResource serverResource = serverResource) ∧
    (tl = ts → handleSyncConflict localResource serverResource = serverResource) := by
  unfold handleSyncConflict resolveTime
  rw [hl, hs]
  refine ⟨fun h => ?_, fun h => ?_, fun h => ?_⟩
  · simp [h]
  · simp [Nat.not_lt.mpr (Nat.le_of_lt h)]
  · simp [h]

/-- Witness for C2: with `updatedAt` 7 vs 3 the local copy wins; with a
5-vs-5 tie the server copy wins. -/
theorem handleSyncConflict_last_write_wins_witness :
    handleSyncConflict localLater serverEarlier = localLater ∧
    handleSyncConflict localTied serverTied = serverTied :=
  ⟨(handleSyncConflict_last_write_wins localLater serverEarlier 7 3 rfl rfl rfl).1
     (by norm_num),
   (handleSyncConflict_last_write_wins localTied serverTied 5 5 rfl rfl rfl).2.2 rfl⟩

/-- C6: with no authenticated user, `executeWorkflow` fails with the
`No authenticated user found` error and the store is returned unchanged —
no document of any of the four collections is written. -/
theorem executeWorkflow_unauthenticated_no_write
    (data : ImmunizationWorkflowData) (env : WorkflowEnv) (db : WorkflowDB) :
    executeWorkflow none data env db = .error ("No authenticated user found", db) := rfl

/-- Counterexample for C8 as stated: a storage state whose only key is the
migration marker itself bound to the empty string.  The marker is present
(`lsGet` returns `some ""`), so the claim requires `false`, but
`isMigrationNeeded` returns `true` (the `!migrationDone` truthiness test
treats an empty-string marker as absent, and the marker key itself starts
with `vaxcare_`). -/
theorem isMigrationNeeded_empty_marker :
    isMigrationNeeded [(markerKey, "")] = true ∧
    lsGet [(markerKey, "")] markerKey = some "" := by
  constructor <;> decide

/-- C8 (amended): `isMigrationNeeded` returns `true` iff some stored key
starts with `vaxcare_` and the marker key is absent or bound to the empty
string (the code tests the marker value for JS truthiness). -/
theorem isMigrationNeeded_characterization (ls : LocalStore) :
    isMigrationNeeded ls = true ↔
      ((∃ p ∈ ls, jsStartsWith p.1 "vaxcare_" = true) ∧
       (lsGet ls markerKey = none ∨ lsGet ls markerKey = some "")) := by
  unfold isMigrationNeeded
  rcases hmk : lsGet ls markerKey with _ | v <;>
    simp [strTruthy, List.any_map, List.any_eq_true, Function.comp]

/-- Counterexample for C10 as stated: the scenario input extended with an
explicitly supplied `site` and `route` of `""` — a string outside the
five-entry maps.  The created Immunization carries no site or route coding
at all (`none`), not the default coding: `data.site ? {...} : undefined`
treats the empty string as absent. -/
theorem empty_site_route_no_default_coding :
    c10Data.site = some "" ∧ c10Data.route = some "" ∧
    siteCodeMap.lookup "" = none ∧ routeCodeMap.lookup "" = none ∧
    immSiteOf (createImmunization user0 c10Data env0 enc0 none db0) = some none ∧
    immRouteOf (createImmunization user0 c10Data env0 enc0 none db0) = some none :=
  ⟨rfl, rfl, rfl, rfl, rfl, rfl⟩

/-- C10 (amended): the coding helpers are total — on any string outside the
five-entry maps they return the default codings — and a workflow input
supplying a NON-EMPTY unmapped site/route string yields an Immunization and
a MedicationAdministration carrying the default codings (site `368208006`
"Left arm", route `78421000` "Intramuscular"); an empty-string site or
route is treated as absent and produces no coding. -/
theorem unmapped_site_route_default_coding
    (user : User) (data : ImmunizationWorkflowData) (env : WorkflowEnv)
    (encounter : Encounter) (medication : Medication) (s r : String)
    (hs : data.site = some s) (hs0 : s ≠ "")
    (hr : data.route = some r) (hr0 : r ≠ "")
    (hsm : siteCodeMap.lookup s = none) (hsd : siteDisplayMap.lookup s = none)
    (hrm : routeCodeMap.lookup r = none) (hrd : routeDisplayMap.lookup r = none) :
    getSiteCode s = "368208006" ∧ getSiteDisplay s = "Left arm" ∧
    getRouteCode r = "78421000" ∧ getRouteDisplay r = "Intramuscular" ∧
    (builtImmunization user data env encounter).site =
      some ⟨[⟨"http://snomed.info/sct", "368208006", "Left arm"⟩]⟩ ∧
    (builtImmunization user data env encounter).route =
      some ⟨[⟨"http://snomed.info/sct", "78421000", "Intramuscular"⟩]⟩ ∧
    (builtMedicationAdministration user data env encounter medication).dosage =
      some ⟨some ⟨[⟨"http://snomed.info/sct", "78421000", "Intramuscular"⟩]⟩,
            some data.doseQuantity,
            some ⟨[⟨"http://snomed.info/sct", "368208006", "Left arm"⟩]⟩⟩ := by
  refine ⟨?_, ?_, ?_, ?_, ?_, ?_, ?_⟩ <;>
    simp [getSiteCode, getSiteDisplay, getRouteCode, getRouteDisplay,
          builtImmunization, builtMedicationAdministration,
          hs, hr, hs0, hr0, hsm, hsd, hrm, hrd]

/-- Witness for C10 (amended): site `"XX"` and route `"YY"` are unmapped
non-empty strings; the built records carry the default codings. -/
theorem unmapped_site_route_default_coding_witness :
    (builtImmunization user0 c10Data2 env0 enc0).site =
      some ⟨[⟨"http://snomed.info/sct", "368208006", "Left arm"⟩]⟩ ∧
    (builtImmunization user0 c10Data2 env0 enc0).route =
      some ⟨[⟨"http://snomed.info/sct", "78421000", "Intramuscular"⟩]⟩ ∧
    (builtMedicationAdministration user0 c10Data2 env0 enc0 med0).dosage =
      some ⟨some ⟨[⟨"http://snomed.info/sct", "78421000", "Intramuscular"⟩]⟩,
            some c10Data2.doseQuantity,
            some ⟨[⟨"http://snomed.info/sct", "368208006", "Left arm"⟩]⟩⟩ := by
  have h := unmapped_site_route_default_coding user0 c10Data2 env0 enc0 med0 "XX" "YY"
    rfl (by decide) rfl (by decide) rfl rfl rfl rfl
  exact ⟨h.2.2.2.2.1, h.2.2.2.2.2.1, h.2.2.2.2.2.2⟩

/-- Helper: `createOrFindMedication` never resolves with `undefined` — on
success it hands back either the found or the newly built Medication. -/
theorem createOrFindMedication_isSome
    (data : ImmunizationWorkflowData) (env : WorkflowEnv) (db : WorkflowDB)
    (om : Option Medication) (db2 : WorkflowDB)
    (h : createOrFindMedication data env db = .ok (om, db2)) : om.isSome = true := by
  unfold createOrFindMedication at h
  cases hf : db.medications.find? (medMatch data.vaccineCode) with
  | some m =>
    rw [hf] at h
    simp only [Except.ok.injEq, Prod.mk.injEq] at h
    rw [← h.1]
    rfl
  | none =>
    rw [hf] at h
    by_cases hM : env.medicationInsertOk <;> simp only [hM, if_true, if_false] at h
    · simp only [Except.ok.injEq, Prod.mk.injEq] at h
      rw [← h.1]
      rfl
    · exact absurd h (by simp)

/-- C9: whenever `executeWorkflow` succeeds, the optional `medication` and
`medicationAdministration` fields of the result are both defined: the
Medication step always yields a Medication (found or created), so step 4
is never skipped. -/
theorem executeWorkflow_result_fields_defined
    (u : User) (data : ImmunizationWorkflowData) (env : WorkflowEnv) (db : WorkflowDB)
    (res : ImmunizationWorkflowResult) (db' : WorkflowDB)
    (h : executeWorkflow (some u) data env db = .ok (res, db')) :
    res.medication.isSome = true ∧ res.medicationAdministration.isSome = true := by
  simp only [executeWorkflow] at h
  split at h
  · exact absurd h (by simp)
  · split at h
    · exact absurd h (by simp)
    · rename_i medication db2 hM
      have hms := createOrFindMedication_isSome data env _ medication db2 hM
      cases medication with
      | none => exact absurd hms (by simp)
      | some med =>
        split at h
        · exact absurd h (by simp)
        · simp only [] at h
          split at h
          · exact absurd h (by simp)
          · simp only [Except.ok.injEq, Prod.mk.injEq] at h
            rw [← h.1]
            exact ⟨rfl, rfl⟩

/-- Witness for C9: the concrete scenario run succeeds and both optional
result fields are defined. -/
theorem executeWorkflow_result_fields_defined_witness :
    executeWorkflow (some user0) c1Data env0 db0 = .ok (runRes0, runDb0) ∧
    runRes0.medication.isSome = true ∧
    runRes0.medicationAdministration.isSome = true :=
  ⟨rfl, executeWorkflow_result_fields_defined user0 c1Data env0 db0 runRes0 runDb0 rfl⟩

/-- C1: on the spec's end-to-end input, with no stored Medication coded
"BCG" and with fresh generated ids, `executeWorkflow` creates exactly four
documents — an Encounter whose subject is `Patient/p1`, a Medication coded
"BCG", an Immunization referencing the patient and the new Encounter, and a
MedicationAdministration copying the Medication's code — each appended to
its collection, carrying the freshly generated id, with `createdAt` equal
to `updatedAt`. -/
theorem executeWorkflow_c1_scenario
    (u : User) (db : WorkflowDB) (env : WorkflowEnv)
    (hE : env.encounterInsertOk = true) (hM : env.medicationInsertOk = true)
    (hI : env.immunizationInsertOk = true) (hA : env.medAdminInsertOk = true)
    (hno : ∀ m ∈ db.medications, ∀ c ∈ m.code.coding, c.code ≠ "BCG")
    (hfE : ∀ e ∈ db.encounters, e.id ≠ "encounter_" ++ env.encounterIdTag)
    (hfM : ∀ m ∈ db.medications, m.id ≠ "medication_" ++ env.medicationIdTag)
    (hfI : ∀ i ∈ db.immunizations, i.id ≠ "immunization_" ++ env.immunizationIdTag)
    (hfA : ∀ a ∈ db.medicationAdministrations,
      a.id ≠ "medicationAdministration_" ++ env.medAdminIdTag) :
    executeWorkflow (some u) c1Data env db =
      .ok (⟨builtEncounter u c1Data env,
            builtImmunization u c1Data env (builtEncounter u c1Data env),
            some (builtMedication c1Data env),
            some (builtMedicationAdministration u c1Data env
                    (builtEncounter u c1Data env) (builtMedication c1Data env))⟩,
           ⟨db.encounters ++ [builtEncounter u c1Data env],
            db.medications ++ [builtMedication c1Data env],
            db.immunizations ++ [builtImmunization u c1Data env (builtEncounter u c1Data env)],
            db.medicationAdministrations ++
              [builtMedicationAdministration u c1Data env (builtEncounter u c1Data env)
                 (builtMedication c1Data env)]⟩) ∧
    (builtEncounter u c1Data env).subject.reference = "Patient/p1" ∧
    (builtMedication c1Data env).code.coding =
      [⟨"http://hl7.org/fhir/sid/cvx", "BCG", "BCG"⟩] ∧
    (builtImmunization u c1Data env (builtEncounter u c1Data env)).patient.reference =
      "Patient/p1" ∧
    (builtImmunization u c1Data env (builtEncounter u c1Data env)).encounter =
      some ⟨"Encounter/" ++ (builtEncounter u c1Data env).id,
            "Immunization visit for Jane Doe"⟩ ∧
    (builtMedicationAdministration u c1Data env (builtEncounter u c1Data env)
       (builtMedication c1Data env)).medicationCodeableConcept =
      (builtMedication c1Data env).code ∧
    (builtEncounter u c1Data env).id = "encounter_" ++ env.encounterIdTag ∧
    (builtMedication c1Data env).id = "medication_" ++ env.medicationIdTag ∧
    (builtImmunization u c1Data env (builtEncounter u c1Data env)).id =
      "immunization_" ++ env.immunizationIdTag ∧
    (builtMedicationAdministration u c1Data env (builtEncounter u c1Data env)
       (builtMedication c1Data env)).id =
      "medicationAdministration_" ++ env.medAdminIdTag ∧
    (builtEncounter u c1Data env).id ∉ db.encounters.map Encounter.id ∧
    (builtMedication c1Data env).id ∉ db.medications.map Medication.id ∧
    (builtImmunization u c1Data env (builtEncounter u c1Data env)).id ∉
      db.immunizations.map Immunization.id ∧
    (builtMedicationAdministration u c1Data env (builtEncounter u c1Data env)
       (builtMedication c1Data env)).id ∉
      db.medicationAdministrations.map MedicationAdministration.id ∧
    (builtEncounter u c1Data env).createdAt = (builtEncounter u c1Data env).updatedAt ∧
    (builtMedication c1Data env).createdAt = (builtMedication c1Data env).updatedAt ∧
    (builtImmunization u c1Data env (builtEncounter u c1Data env)).createdAt =
      (builtImmunization u c1Data env (builtEncounter u c1Data env)).updatedAt ∧
    (builtMedicationAdministration u c1Data env (builtEncounter u c1Data env)
       (builtMedication c1Data env)).createdAt =
      (builtMedicationAdministration u c1Data env (builtEncounter u c1Data env)
         (builtMedication c1Data env)).updatedAt := by
  have hfind : db.medications.find? (medMatch c1Data.vaccineCode) = none := by
    rw [List.find?_eq_none]
    intro m hm
    simp only [medMatch, c1Data, List.any_eq_true, beq_iff_eq, not_exists, not_and]
    intro c hc
    exact hno m hm c hc
  refine ⟨?_, rfl, rfl, rfl, rfl, rfl, rfl, rfl, rfl, rfl, ?_, ?_, ?_, ?_, rfl, rfl, rfl, rfl⟩
  · simp [executeWorkflow, createEncounter, createOrFindMedication, createImmunization,
          createMedicationAdministration, hE, hM, hI, hA, hfind]
  · simp only [List.mem_map, not_exists, not_and]
    exact fun e he h => hfE e he h
  · simp only [List.mem_map, not_exists, not_and]
    exact fun m hm h => hfM m hm h
  · simp only [List.mem_map, not_exists, not_and]
    exact fun i hi h => hfI i hi h
  · simp only [List.mem_map, not_exists, not_and]
    exact fun a ha h => hfA a ha h

/-- Witness for C1: the scenario run on an empty store. -/
theorem executeWorkflow_c1_scenario_witness :
    executeWorkflow (some user0) c1Data env0 db0 = .ok (runRes0, runDb0) :=
  (executeWorkflow_c1_scenario user0 db0 env0 rfl rfl rfl rfl (by simp [db0])
     (by simp [db0]) (by simp [db0]) (by simp [db0]) (by simp [db0])).1

/-- C3: when a stored Medication already matches the vaccine code
(`find?` succeeds), `executeWorkflow` returns that stored Medication, the
Medication collection gains no document, and a new Encounter and a new
Immunization (and MedicationAdministration) are still created. -/
theorem executeWorkflow_reuses_existing_medication
    (u : User) (data : ImmunizationWorkflowData) (env : WorkflowEnv) (db : WorkflowDB)
    (med : Medication)
    (hE : env.encounterInsertOk = true) (hI : env.immunizationInsertOk = true)
    (hA : env.medAdminInsertOk = true)
    (hfound : db.medications.find? (medMatch data.vaccineCode) = some med) :
    executeWorkflow (some u) data env db =
      .ok (⟨builtEncounter u data env,
            builtImmunization u data env (builtEncounter u data env),
            some med,
            some (builtMedicationAdministration u data env (builtEncounter u data env) med)⟩,
           ⟨db.encounters ++ [builtEncounter u data env],
            db.medications,
            db.immunizations ++ [builtImmunization u data env (builtEncounter u data env)],
            db.medicationAdministrations ++
              [builtMedicationAdministration u data env (builtEncounter u data env) med]⟩) := by
  simp [executeWorkflow, createEncounter, createOrFindMedication, createImmunization,
        createMedicationAdministration, hE, hI, hA, hfound]

/-- Witness for C3: a second scenario run against a store already holding
the "BCG" Medication returns it and leaves the Medication collection at one
document. -/
theorem executeWorkflow_reuses_existing_medication_witness :
    executeWorkflow (some user0) c1Data env0 db1 = .ok (runRes0, runDb0) :=
  executeWorkflow_reuses_existing_medication user0 c1Data env0 db1 med0 rfl rfl rfl rfl

/-- C5: a failing step propagates its failure immediately and nothing is
rolled back: each conjunct pins one failing insert (encounter, created
medication, immunization with/without a found medication, administration
with/without a found medication) and shows the store keeps exactly the
documents of the earlier steps while no later document is written. -/
theorem executeWorkflow_no_rollback
    (u : User) (data : ImmunizationWorkflowData) (env : WorkflowEnv) (db : WorkflowDB) :
    (env.encounterInsertOk = false →
      executeWorkflow (some u) data env db = .error ("insert failed", db)) ∧
    (env.encounterInsertOk = true → env.medicationInsertOk = false →
      db.medications.find? (medMatch data.vaccineCode) = none →
      executeWorkflow (some u) data env db =
        .error ("insert failed",
          { db with encounters := db.encounters ++ [builtEncounter u data env] })) ∧
    (env.encounterInsertOk = true → env.medicationInsertOk = true →
      env.immunizationInsertOk = false →
      db.medications.find? (medMatch data.vaccineCode) = none →
      executeWorkflow (some u) data env db =
        .error ("insert failed",
          { db with encounters := db.encounters ++ [builtEncounter u data env],
                    medications := db.medications ++ [builtMedication data env] })) ∧
    (∀ med, env.encounterInsertOk = true → env.immunizationInsertOk = false →
      db.medications.find? (medMatch data.vaccineCode) = some med →
      executeWorkflow (some u) data env db =
        .error ("insert failed",
          { db with encounters := db.encounters ++ [builtEncounter u data env] })) ∧
    (env.encounterInsertOk = true → env.medicationInsertOk = true →
      env.immunizationInsertOk = true → env.medAdminInsertOk = false →
      db.medications.find? (medMatch data.vaccineCode) = none →
      executeWorkflow (some u) data env db =
        .error ("insert failed",
          { db with encounters := db.encounters ++ [builtEncounter u data env],
                    medications := db.medications ++ [builtMedication data env],
                    immunizations := db.immunizations ++
                      [builtImmunization u data env (builtEncounter u data env)] })) ∧
    (∀ med, env.encounterInsertOk = true → env.immunizationInsertOk = true →
      env.medAdminInsertOk = false →
      db.medications.find? (medMatch data.vaccineCode) = some med →
      executeWorkflow (some u) data env db =
        .error ("insert failed",
          { db with encounters := db.encounters ++ [builtEncounter u data env],
                    immunizations := db.immunizations ++
                      [builtImmunization u data env (builtEncounter u data env)] })) := by
  refine ⟨fun h1 => ?_, fun h1 h2 h3 => ?_, fun h1 h2 h3 h4 => ?_,
          fun med h1 h2 h3 => ?_, fun h1 h2 h3 h4 h5 => ?_, fun med h1 h2 h3 h4 => ?_⟩ <;>
    simp [executeWorkflow, createEncounter, createOrFindMedication, createImmunization,
          createMedicationAdministration, *]

/-- Witness for C5: with the Immunization insert rejecting, the run fails
and the store keeps exactly the Encounter and the Medication of steps 1–2. -/
theorem executeWorkflow_no_rollback_witness :
    executeWorkflow (some user0) c1Data envFailImm db0 =
      .error ("insert failed",
        ⟨[builtEncounter user0 c1Data envFailImm], [builtMedication c1Data envFailImm],
         [], []⟩) :=
  (executeWorkflow_no_rollback user0 c1Data envFailImm db0).2.2.1 rfl rfl rfl rfl

/-- Helper: `getItem` after `removeItem`. -/
theorem lsGet_removeItem (k j : String) (ls : LocalStore) :
    lsGet (removeItem k ls) j = if j = k then none else lsGet ls j := by
  induction ls with
  | nil => simp [removeItem, lsGet]
  | cons p rest ih =>
    obtain ⟨a, b⟩ := p
    simp only [removeItem, List.filter_cons] at ih ⊢
    by_cases hak : a = k
    · subst hak
      simp only [bne_self_eq_false, Bool.false_eq_true, if_false]
      rw [ih]
      rcases eq_or_ne j a with hj | hj
      · simp [hj]
      · simp [hj, lsGet, Ne.symm hj]
    · rw [if_pos (by simpa using hak)]
      simp only [lsGet]
      rcases eq_or_ne a j with haj | haj
      · subst haj
        have hjk : ¬(a = k) := hak
        simp [hjk]
      · simp only [if_neg haj]
        rw [ih]

/-- Helper: `getItem` over list append. -/
theorem lsGet_append (l1 l2 : LocalStore) (j : String) :
    lsGet (l1 ++ l2) j =
      match lsGet l1 j with
      | some v => some v
      | none => lsGet l2 j := by
  induction l1 with
  | nil => simp [lsGet]
  | cons p rest ih =>
    obtain ⟨a, b⟩ := p
    simp only [List.cons_append, lsGet]
    by_cases haj : a = j
    · simp [haj]
    · simp [haj, ih]

/-- Helper: `getItem` of the key just written by `setItem`. -/
theorem lsGet_setItem_self (k v : String) (ls : LocalStore) :
    lsGet (setItem k v ls) k = some v := by
  rw [setItem, lsGet_append, lsGet_removeItem]
  simp [lsGet]

/-- Helper: `setItem` does not disturb other keys. -/
theorem lsGet_setItem_ne (k v j : String) (ls : LocalStore) (h : j ≠ k) :
    lsGet (setItem k v ls) j = lsGet ls j := by
  rw [setItem, lsGet_append, lsGet_removeItem, if_neg h]
  cases hx : lsGet ls j <;> simp [lsGet, Ne.symm h]

/-- Helper: removals commute. -/
theorem removeItem_comm (a b : String) (ls : LocalStore) :
    removeItem a (removeItem b ls) = removeItem b (removeItem a ls) := by
  simp only [removeItem, List.filter_filter]
  congr 1
  funext p
  exact Bool.and_comm _ _

/-- Helper: rewriting the same key with the same value is a no-op. -/
theorem setItem_setItem (k v : String) (ls : LocalStore) :
    setItem k v (setItem k v ls) = setItem k v ls := by
  simp only [setItem]
  congr 1
  simp only [removeItem, List.filter_append, List.filter_filter]
  have h1 : (fun (x : String × String) => (x.1 != k) && (x.1 != k)) =
      fun (x : String × String) => x.1 != k := funext fun x => Bool.and_self _
  rw [h1]
  simp [List.filter_cons]

/-- Evaluation: `migrateData` on an absent key is a no-op. -/
theorem migrateData_eval_none (parse : String → ParseOutcome) (k : String) (s : MigState)
    (h : lsGet s.ls k = none) : migrateData parse k s = s := by
  unfold migrateData
  rw [h]

/-- Evaluation: `migrateData` on an empty-string value is a no-op
(`if (data)` is falsy). -/
theorem migrateData_eval_empty (parse : String → ParseOutcome) (k : String) (s : MigState)
    (h : lsGet s.ls k = some "") : migrateData parse k s = s := by
  unfold migrateData
  rw [h]
  simp

/-- Evaluation: `migrateData` on an unparseable value removes the key. -/
theorem migrateData_eval_fail (parse : String → ParseOutcome) (k : String) (s : MigState)
    (v : String) (h : lsGet s.ls k = some v) (hne : v ≠ "") (hp : parse v = .fail) :
    migrateData parse k s = ⟨removeItem k s.ls, s.store⟩ := by
  unfold migrateData
  rw [h]
  simp only [hne, if_false, hp]

/-- Evaluation: `migrateData` on a non-array value is a no-op. -/
theorem migrateData_eval_nonArray (parse : String → ParseOutcome) (k : String) (s : MigState)
    (v : String) (h : lsGet s.ls k = some v) (hne : v ≠ "") (hp : parse v = .nonArray) :
    migrateData parse k s = s := by
  unfold migrateData
  rw [h]
  simp only [hne, if_false, hp]

/-- Evaluation: `migrateData` on an empty parsed array is a no-op. -/
theorem migrateData_eval_array_nil (parse : String → ParseOutcome) (k : String) (s : MigState)
    (v : String) (items : List LegacyItem) (h : lsGet s.ls k = some v) (hne : v ≠ "")
    (hp : parse v = .array items) (hnil : items = []) :
    migrateData parse k s = s := by
  unfold migrateData
  rw [h]
  simp [hne, hp, hnil]

/-- Evaluation: `migrateData` on a non-empty parsed array bulk-inserts the
records into the keyed collection and removes the key. -/
theorem migrateData_eval_array_pos (parse : String → ParseOutcome) (k : String) (s : MigState)
    (v : String) (items : List LegacyItem) (h : lsGet s.ls k = some v) (hne : v ≠ "")
    (hp : parse v = .array items) (hl : 0 < items.length) :
    migrateData parse k s =
      ⟨removeItem k s.ls,
       fun j => if j = k then s.store k ++ items.map (fun it => ⟨it.id, it⟩)
                else s.store j⟩ := by
  unfold migrateData
  rw [h]
  simp [hne, hp, hl]

/-- Helper: `benign` only depends on the key's `getItem` view. -/
theorem benign_congr (parse : String → ParseOutcome) (ls ls' : LocalStore) (k : String)
    (h : lsGet ls' k = lsGet ls k) (hb : benign parse ls k) : benign parse ls' k := by
  unfold benign at hb ⊢
  rw [h]
  exact hb

/-- Helper: removing any key preserves benignity. -/
theorem benign_removeItem (parse : String → ParseOutcome) (j k : String) (ls : LocalStore)
    (hb : benign parse ls k) : benign parse (removeItem j ls) k := by
  rcases eq_or_ne k j with h | h
  · subst h
    unfold benign
    rw [lsGet_removeItem]
    simp
  · exact benign_congr parse ls _ k (by rw [lsGet_removeItem, if_neg h]) hb

/-- Helper: `migrateData` either leaves the flat store intact or removes
its own key. -/
theorem migrateData_ls_cases (parse : String → ParseOutcome) (k : String) (s : MigState) :
    (migrateData parse k s).ls = s.ls ∨ (migrateData parse k s).ls = removeItem k s.ls := by
  rcases hv : lsGet s.ls k with _ | v
  · rw [migrateData_eval_none parse k s hv]; left; rfl
  · by_cases hvv : v = ""
    · subst hvv; rw [migrateData_eval_empty parse k s hv]; left; rfl
    · rcases hp : parse v with _ | _ | items
      · rw [migrateData_eval_fail parse k s v hv hvv hp]; right; rfl
      · rw [migrateData_eval_nonArray parse k s v hv hvv hp]; left; rfl
      · rcases Nat.eq_zero_or_pos items.length with hl | hl
        · rw [migrateData_eval_array_nil parse k s v items hv hvv hp
            (List.length_eq_zero.mp hl)]
          left; rfl
        · rw [migrateData_eval_array_pos parse k s v items hv hvv hp hl]; right; rfl

/-- Helper: after `migrateData` its own key is benign. -/
theorem migrateData_benign_self (parse : String → ParseOutcome) (k : String) (s : MigState) :
    benign parse (migrateData parse k s).ls k := by
  rcases hv : lsGet s.ls k with _ | v
  · rw [migrateData_eval_none parse k s hv]
    unfold benign
    rw [hv]
    trivial
  · by_cases hvv : v = ""
    · subst hvv
      rw [migrateData_eval_empty parse k s hv]
      unfold benign
      rw [hv]
      simp
    · rcases hp : parse v with _ | _ | items
      · rw [migrateData_eval_fail parse k s v hv hvv hp]
        unfold benign
        rw [show lsGet (removeItem k s.ls) k = none by rw [lsGet_removeItem]; simp]
        trivial
      · rw [migrateData_eval_nonArray parse k s v hv hvv hp]
        unfold benign
        rw [hv]
        simp [hvv, hp]
      · rcases Nat.eq_zero_or_pos items.length with hl | hl
        · rw [migrateData_eval_array_nil parse k s v items hv hvv hp
            (List.length_eq_zero.mp hl)]
          unfold benign
          rw [hv]
          simp [hvv, hp, List.length_eq_zero.mp hl]
        · rw [migrateData_eval_array_pos parse k s v items hv hvv hp hl]
          unfold benign
          rw [show lsGet (removeItem k s.ls) k = none by rw [lsGet_removeItem]; simp]
          trivial

/-- Helper: `migrateData` preserves benignity of every key. -/
theorem migrateData_benign_preserved (parse : String → ParseOutcome) (j k : String)
    (s : MigState) (hb : benign parse s.ls k) :
    benign parse (migrateData parse j s).ls k := by
  rcases migrateData_ls_cases parse j s with hc | hc <;> rw [hc]
  · exact hb
  · exact benign_removeItem parse j k s.ls hb

/-- Helper: `migrateData` on a benign key is a no-op. -/
theorem migrateData_id_of_benign (parse : String → ParseOutcome) (k : String) (s : MigState)
    (hb : benign parse s.ls k) : migrateData parse k s = s := by
  unfold benign at hb
  rcases hv : lsGet s.ls k with _ | v
  · exact migrateData_eval_none parse k s hv
  · simp only [hv] at hb
    by_cases hvv : v = ""
    · subst hvv
      exact migrateData_eval_empty parse k s hv
    · rw [if_neg hvv] at hb
      rcases hp : parse v with _ | _ | items
      · rw [hp] at hb
        exact hb.elim
      · exact migrateData_eval_nonArray parse k s v hv hvv hp
      · rw [hp] at hb
        exact migrateData_eval_array_nil parse k s v items hv hvv hp hb

/-- Helper: a fold of `migrateData` steps preserves benignity. -/
theorem migrateSeq_benign_preserved (parse : String → ParseOutcome) (l : List String)
    (k : String) (s : MigState) (hb : benign parse s.ls k) :
    benign parse (migrateSeq parse l s).ls k := by
  induction l generalizing s with
  | nil => exact hb
  | cons j rest ih => exact ih _ (migrateData_benign_preserved parse j k s hb)

/-- Helper: after a fold of `migrateData` steps, every processed key is
benign. -/
theorem migrateSeq_benign_mem (parse : String → ParseOutcome) (l : List String)
    (k : String) (s : MigState) (hk : k ∈ l) :
    benign parse (migrateSeq parse l s).ls k := by
  induction l generalizing s with
  | nil => cases hk
  | cons j rest ih =>
    rcases List.mem_cons.mp hk with h | h
    · subst h
      exact migrateSeq_benign_preserved parse rest k _ (migrateData_benign_self parse k s)
    · exact ih _ h

/-- Helper: a fold of `migrateData` steps over benign keys is a no-op. -/
theorem migrateSeq_id_of_benign (parse : String → ParseOutcome) (l : List String)
    (s : MigState) (hb : ∀ k ∈ l, benign parse s.ls k) :
    migrateSeq parse l s = s := by
  induction l with
  | nil => rfl
  | cons j rest ih =>
    have hstep : migrateData parse j s = s :=
      migrateData_id_of_benign parse j s (hb j (List.mem_cons_self j rest))
    show migrateSeq parse rest (migrateData parse j s) = s
    rw [hstep]
    exact ih fun k hk => hb k (List.mem_cons_of_mem j hk)

/-- Helper: a fold of `migrateData` steps never introduces a key. -/
theorem migrateSeq_lsGet_none (parse : String → ParseOutcome) (l : List String)
    (s : MigState) (j : String) (h : lsGet s.ls j = none) :
    lsGet (migrateSeq parse l s).ls j = none := by
  induction l generalizing s with
  | nil => exact h
  | cons a rest ih =>
    refine ih _ ?_
    rcases migrateData_ls_cases parse a s with hc | hc <;> rw [hc]
    · exact h
    · rw [lsGet_removeItem]
      simp [h]

/-- Helper: a fold of `migrateData` steps does not disturb keys outside the
processed list. -/
theorem migrateSeq_lsGet_not_mem (parse : String → ParseOutcome) (l : List String)
    (s : MigState) (j : String) (hj : ∀ k ∈ l, j ≠ k) :
    lsGet (migrateSeq parse l s).ls j = lsGet s.ls j := by
  induction l generalizing s with
  | nil => rfl
  | cons a rest ih =>
    show lsGet (migrateSeq parse rest (migrateData parse a s)).ls j = lsGet s.ls j
    rw [ih _ fun k hk => hj k (List.mem_cons_of_mem a hk)]
    rcases migrateData_ls_cases parse a s with hc | hc <;> rw [hc]
    rw [lsGet_removeItem, if_neg (hj a (List.mem_cons_self a rest))]

/-- Helper: a fold of `migrateData` steps behaves identically whether a key
holding an unparseable (non-empty) value is dropped up front or dropped by
its own step — the corrupt key influences nothing else. -/
theorem migrateSeq_removeItem_fail (parse : String → ParseOutcome) (l : List String)
    (ls : LocalStore) (st : String → List MigDoc) (k v : String)
    (hk : k ∈ l) (hv : lsGet ls k = some v) (hne : v ≠ "") (hp : parse v = .fail) :
    migrateSeq parse l ⟨ls, st⟩ = migrateSeq parse l ⟨removeItem k ls, st⟩ := by
  induction l generalizing ls st with
  | nil => cases hk
  | cons j rest ih =>
    show migrateSeq parse rest (migrateData parse j ⟨ls, st⟩) =
      migrateSeq parse rest (migrateData parse j ⟨removeItem k ls, st⟩)
    rcases eq_or_ne j k with hjk | hjk
    · subst hjk
      rw [migrateData_eval_fail parse j ⟨ls, st⟩ v hv hne hp,
          migrateData_eval_none parse j ⟨removeItem j ls, st⟩
            (by rw [lsGet_removeItem]; simp)]
    · have hk' : k ∈ rest := by
        rcases List.mem_cons.mp hk with h | h
        · exact absurd h.symm hjk
        · exact h
      have hv' : lsGet (removeItem j ls) k = some v := by
        rw [lsGet_removeItem, if_neg (Ne.symm hjk)]
        exact hv
      rcases hvj : lsGet ls j with _ | w
      · rw [migrateData_eval_none parse j ⟨ls, st⟩ hvj,
            migrateData_eval_none parse j ⟨removeItem k ls, st⟩
              (by rw [lsGet_removeItem, if_neg hjk]; exact hvj)]
        exact ih ls st hk' hv
      · have hvj' : lsGet (removeItem k ls) j = some w := by
          rw [lsGet_removeItem, if_neg hjk]
          exact hvj
        by_cases hw : w = ""
        · subst hw
          rw [migrateData_eval_empty parse j ⟨ls, st⟩ hvj,
              migrateData_eval_empty parse j ⟨removeItem k ls, st⟩ hvj']
          exact ih ls st hk' hv
        · rcases hpw : parse w with _ | _ | items
          · rw [migrateData_eval_fail parse j ⟨ls, st⟩ w hvj hw hpw,
                migrateData_eval_fail parse j ⟨removeItem k ls, st⟩ w hvj' hw hpw]
            show migrateSeq parse rest ⟨removeItem j ls, st⟩ =
              migrateSeq parse rest ⟨removeItem j (removeItem k ls), st⟩
            rw [removeItem_comm j k ls]
            exact ih (removeItem j ls) st hk' hv'
          · rw [migrateData_eval_nonArray parse j ⟨ls, st⟩ w hvj hw hpw,
                migrateData_eval_nonArray parse j ⟨removeItem k ls, st⟩ w hvj' hw hpw]
            exact ih ls st hk' hv
          · rcases Nat.eq_zero_or_pos items.length with hl | hl
            · rw [migrateData_eval_array_nil parse j ⟨ls, st⟩ w items hvj hw hpw
                  (List.length_eq_zero.mp hl),
                  migrateData_eval_array_nil parse j ⟨removeItem k ls, st⟩ w items hvj' hw hpw
                  (List.length_eq_zero.mp hl)]
              exact ih ls st hk' hv
            · rw [migrateData_eval_array_pos parse j ⟨ls, st⟩ w items hvj hw hpw hl,
                  migrateData_eval_array_pos parse j ⟨removeItem k ls, st⟩ w items hvj' hw hpw hl]
              show migrateSeq parse rest ⟨removeItem j ls, _⟩ =
                migrateSeq parse rest ⟨removeItem j (removeItem k ls), _⟩
              rw [removeItem_comm j k ls]
              exact ih (removeItem j ls) _ hk' hv'

/-- C4: migration is idempotent — a second `migrateFromLocalStorage` run is
the identity on the joint state (no second import, store contents
unchanged); processing the collections alone never touches the completion
marker (it is written only by the final `setItem`), which the full run
always leaves set. -/
theorem migrateFromLocalStorage_idempotent (parse : String → ParseOutcome) (s : MigState) :
    migrateFromLocalStorage parse (migrateFromLocalStorage parse s) =
      migrateFromLocalStorage parse s ∧
    lsGet (migrateCollections parse s).ls markerKey = lsGet s.ls markerKey ∧
    lsGet (migrateFromLocalStorage parse s).ls markerKey = some "true" := by
  have hmk : ∀ k ∈ migKeys, markerKey ≠ k := by decide
  refine ⟨?_, ?_, ?_⟩
  · have hben : ∀ k ∈ migKeys, benign parse (migrateFromLocalStorage parse s).ls k := by
      intro k hk
      have h1 : benign parse (migrateCollections parse s).ls k :=
        migrateSeq_benign_mem parse migKeys k s hk
      have hkm : k ≠ markerKey := fun he => hmk k hk he.symm
      exact benign_congr parse _ _ k
        (lsGet_setItem_ne markerKey "true" k (migrateCollections parse s).ls hkm) h1
    have h2 : migrateCollections parse (migrateFromLocalStorage parse s) =
        migrateFromLocalStorage parse s :=
      migrateSeq_id_of_benign parse migKeys _ hben
    calc migrateFromLocalStorage parse (migrateFromLocalStorage parse s)
        = { migrateCollections parse (migrateFromLocalStorage parse s) with
            ls := setItem markerKey "true"
              (migrateCollections parse (migrateFromLocalStorage parse s)).ls } := rfl
      _ = { migrateFromLocalStorage parse s with
            ls := setItem markerKey "true" (migrateFromLocalStorage parse s).ls } := by
            rw [h2]
      _ = migrateFromLocalStorage parse s := by
            show { migrateFromLocalStorage parse s with
                   ls := setItem markerKey "true"
                     (setItem markerKey "true" (migrateCollections parse s).ls) } =
              migrateFromLocalStorage parse s
            rw [setItem_setItem]
            rfl
  · exact migrateSeq_lsGet_not_mem parse migKeys s markerKey hmk
  · exact lsGet_setItem_self markerKey "true" (migrateCollections parse s).ls

/-- Counterexample for C7 as stated: a legacy key holding the empty string
— a value on which `JSON.parse` throws — is NOT deleted by the migration:
the `if (data)` truthiness guard skips it before parsing, so it survives
the run unchanged. -/
theorem migrate_empty_value_key_not_deleted :
    parseEmpty "" = .fail ∧
    lsGet migEmpty.ls "vaxcare_patients" = some "" ∧
    lsGet (migrateFromLocalStorage parseEmpty migEmpty).ls "vaxcare_patients" = some "" := by
  refine ⟨rfl, rfl, ?_⟩
  rfl

/-- C7 (amended): a legacy key whose NON-EMPTY value fails to parse is
deleted and the rest of the migration proceeds exactly as if the key had
never been there — every other collection is still imported and the
completion marker is still written (a key holding the empty string is
skipped untouched instead). -/
theorem migrateFromLocalStorage_drops_unparseable
    (parse : String → ParseOutcome) (s : MigState) (k v : String)
    (hk : k ∈ migKeys) (hv : lsGet s.ls k = some v) (hne : v ≠ "")
    (hp : parse v = .fail) :
    migrateFromLocalStorage parse s =
      migrateFromLocalStorage parse ⟨removeItem k s.ls, s.store⟩ ∧
    lsGet (migrateFromLocalStorage parse s).ls k = none ∧
    lsGet (migrateFromLocalStorage parse s).ls markerKey = some "true" := by
  have hmk : ∀ j ∈ migKeys, markerKey ≠ j := by decide
  have hkm : k ≠ markerKey := fun he => hmk k hk he.symm
  have hseq : migrateSeq parse migKeys s = migrateSeq parse migKeys ⟨removeItem k s.ls, s.store⟩ :=
    migrateSeq_removeItem_fail parse migKeys s.ls s.store k v hk hv hne hp
  refine ⟨?_, ?_, ?_⟩
  · show { migrateCollections parse s with
           ls := setItem markerKey "true" (migrateCollections parse s).ls } = _
    unfold migrateCollections
    rw [hseq]
    rfl
  · show lsGet (setItem markerKey "true" (migrateCollections parse s).ls) k = none
    rw [lsGet_setItem_ne markerKey "true" k _ hkm]
    unfold migrateCollections
    rw [hseq]
    exact migrateSeq_lsGet_none parse migKeys _ k (by rw [lsGet_removeItem]; simp)
  · exact lsGet_setItem_self markerKey "true" (migrateCollections parse s).ls

/-- Witness for C7 (amended): the corrupt `vaxcare_practitioners` key is
dropped, the run equals the run on the pre-cleaned storage, and the marker
is written. -/
theorem migrateFromLocalStorage_drops_unparseable_witness :
    migrateFromLocalStorage parse0 mig0 =
      migrateFromLocalStorage parse0 ⟨removeItem "vaxcare_practitioners" mig0.ls, mig0.store⟩ ∧
    lsGet (migrateFromLocalStorage parse0 mig0).ls "vaxcare_practitioners" = none ∧
    lsGet (migrateFromLocalStorage parse0 mig0).ls markerKey = some "true" :=
  migrateFromLocalStorage_drops_unparseable parse0 mig0 "vaxcare_practitioners" "BAD"
    (by decide) rfl (by decide) rfl

end VaxCare
